import Mathlib

/-!
# Shallow embedding of `ts_scripts/install_dependencies.py`

The script is a sequential orchestrator of external-tool invocations
(`subprocess.check_call`, `urllib.request.urlopen`, `tarfile` extraction,
`shutil.rmtree`, `os.remove`), gated by simple conditionals: the detected
operating system, presence of a binary on the search path (`shutil.which`),
and command-line flags.

We embed each function as a pure Lean function producing
* a trace of external-effect events, in the order the script performs them, and
* an outcome: normal return, `sys.exit`, or a propagating exception
  (`subprocess.CalledProcessError` / download / extraction error).

Success of each fallible external step is decided by an oracle
`run : Event → Bool` (true = the step succeeds); a failing step raises and
later steps are skipped, exactly like `subprocess.check_call` and the other
fallible Python calls.

Environment probes (`platform.system()`, `shutil.which`, `os.geteuid`, the
`brew --version` probe of `get_brew_version`, which lives in
`print_env_info.py` outside this file) are modeled as fields of an `Env`
record, fixed for the duration of a run.
-/

/-- The three operating systems of `os_map` in `install_dependencies`. -/
inductive OS
  | Linux
  | Windows
  | Darwin
deriving DecidableEq, Repr

/-- `platform.system()` for each OS. -/
def systemName : OS → String
  | OS.Linux => "Linux"
  | OS.Windows => "Windows"
  | OS.Darwin => "Darwin"

/-- `platform.system().lower()` for each OS. -/
def systemLower : OS → String
  | OS.Linux => "linux"
  | OS.Windows => "windows"
  | OS.Darwin => "darwin"

/-- Models `sys.executable`, the interpreter path used in `pip` commands. -/
def sys_executable : String := "python"

/-- Models the name of the `tempfile.NamedTemporaryFile` that
`Linux.install_nodejs` downloads the nodesource setup script into. -/
def tmp_file_name : String := "/tmp/nodesource_setup"

/-- One external effect performed by the script.  `step` is a marker emitted
by the embedding of the driver `install_dependencies` at each of its
variant-method call sites, so that the order of method invocations is
observable in the trace; the other constructors are the real effects. -/
inductive Event
  | step (name : String)
  | call (cmd : List String)
  | urlopen (url : String)
  | extract (tarball : String)
  | rmtree (dir : String)
  | removeFile (path : String)
deriving DecidableEq, Repr

/-- How a modeled Python call ends: normal return, `sys.exit` (with exit code
and printed/exit message), or an exception propagating from a failed
external step. -/
inductive Outcome
  | ok
  | exited (code : Nat) (msg : String)
  | raised (e : Event)
deriving DecidableEq, Repr

/-- A modeled computation: the trace of events performed, and the outcome. -/
abbrev Proc := List Event × Outcome

/-- Perform one fallible external step: the event is always recorded (the
tool is invoked); the oracle decides whether it succeeds or raises. -/
def perform (run : Event → Bool) (e : Event) : Proc :=
  ([e], if run e then Outcome.ok else Outcome.raised e)

/-- Emit an always-successful marker event. -/
def emit (e : Event) : Proc :=
  ([e], Outcome.ok)

/-- The no-op computation (Python `pass`, or a skipped branch). -/
def skip : Proc := ([], Outcome.ok)

/-- Sequencing: run `p`; if it returned normally, continue with `q`;
a `sys.exit` or an exception in `p` skips `q` and propagates. -/
def andThen : Proc → Proc → Proc
  | (es, Outcome.ok), (es2, o) => (es ++ es2, o)
  | (es, o), _ => (es, o)

/-- The result of the environment probes the script makes, fixed per run. -/
structure Env where
  /-- `platform.system()` result, as one of the three supported systems. -/
  os : OS
  /-- `shutil.which("javac")` is non-None. -/
  javacPresent : Bool
  /-- `shutil.which("node")` is non-None. -/
  nodePresent : Bool
  /-- `shutil.which("wget")` is non-None. -/
  wgetPresent : Bool
  /-- `shutil.which("conda")` is non-None. -/
  condaPresent : Bool
  /-- `os.geteuid() == 0`. -/
  isRoot : Bool
  /-- Whether `get_brew_version()` (via `print_env_info.run_and_parse_first_match`
  on `brew --version`) returned `"N/A"`, i.e. Homebrew is not installed; the
  probe's result is only ever compared against `"N/A"`, so the model records
  just that comparison. -/
  brewVersionNA : Bool
deriving DecidableEq, Repr

/-- The parsed command-line arguments (`argparse` namespace `args`). -/
structure Args where
  /-- `--cuda`, default `None`, choices cu92/cu101/cu102/cu111/cu113/cu116/cu117/cu118. -/
  cuda : Option String
  /-- `--environment`, default `"prod"`, choices `"prod"`/`"dev"`. -/
  environment : String
  /-- `--nightly_torch` store_true flag. -/
  nightly_torch : Bool
  /-- `--force` store_true flag. -/
  force : Bool
deriving DecidableEq, Repr

/-- Python truthiness of an `Optional[str]`: `None` and `""` are falsy. -/
def truthy : Option String → Bool
  | none => false
  | some s => !(s == "")

/-- Python `f"...{x}..."` conversion of an `Optional[str]`: `None` prints as
the literal string `"None"`. -/
def pyStr : Option String → String
  | none => "None"
  | some s => s

/-- Python `list(filter(None, cmd))`: drop falsy (empty-string) elements. -/
def filterNone (cmd : List String) : List String :=
  cmd.filter (fun s => !(s == ""))

/-- `self.sudo_cmd` after `__init__` of the variant class selected for the
OS: `Common.__init__` sets `"sudo"`; `Linux.__init__` clears it when the
user is root; `Windows.__init__` clears it; `Darwin` keeps `"sudo"`. -/
def sudo_cmd (env : Env) : String :=
  match env.os with
  | OS.Linux => if env.isRoot then "" else "sudo"
  | OS.Windows => ""
  | OS.Darwin => "sudo"

/-- Side effects of constructing the variant class (`os_map[platform.system()]()`):
`Linux.__init__` runs `apt-get update` when `args.force` is set; the other
variants' constructors perform no external step. -/
def classInit (run : Event → Bool) (env : Env) (args : Args) : Proc :=
  match env.os with
  | OS.Linux =>
      if args.force then
        perform run (Event.call (filterNone [sudo_cmd env, "apt-get", "update"]))
      else skip
  | _ => skip

/-- `check_for_jdk`, dispatched on the variant class:
`Linux.check_for_jdk` exits by `sys.exit(<message>)` (exit code 1) when
`javac` is absent or `--force` is set; `Windows.check_for_jdk` is `pass`;
`Darwin.check_for_jdk` checks `get_brew_version()` and runs
`brew install openjdk@17` when `javac` is absent or `--force` is set. -/
def check_for_jdk (run : Event → Bool) (env : Env) (args : Args) : Proc :=
  match env.os with
  | OS.Linux =>
      if !env.javacPresent || args.force then
        ([], Outcome.exited 1
          "javac not found on PATH. Please install JDK 17 appropriate for your operating system.")
      else skip
  | OS.Windows => skip
  | OS.Darwin =>
      if !env.javacPresent || args.force then
        if env.brewVersionNA then
          ([], Outcome.exited 1 "**Error: Homebrew not installed...")
        else
          perform run (Event.call ["brew", "install", "openjdk@17"])
      else skip

/-- `install_nodejs`, dispatched on the variant class:
`Linux.install_nodejs` (guarded by `node` absence or `--force`) downloads the
nodesource setup script, runs it with bash, then `apt-get install -y nodejs`;
`Windows.install_nodejs` is `pass`; `Darwin.install_nodejs` unconditionally
runs `brew unlink node`, `brew install node@14`,
`brew link --overwrite node@14`. -/
def install_nodejs (run : Event → Bool) (env : Env) (args : Args) : Proc :=
  match env.os with
  | OS.Linux =>
      if !env.nodePresent || args.force then
        andThen (perform run (Event.urlopen "https://deb.nodesource.com/setup_14.x"))
          (andThen (perform run (Event.call (filterNone [sudo_cmd env, "bash", tmp_file_name])))
            (perform run (Event.call
              (filterNone [sudo_cmd env, "apt-get", "install", "-y", "nodejs"]))))
      else skip
  | OS.Windows => skip
  | OS.Darwin =>
      andThen (perform run (Event.call ["brew", "unlink", "node"]))
        (andThen (perform run (Event.call ["brew", "install", "node@14"]))
          (perform run (Event.call ["brew", "link", "--overwrite", "node@14"])))

/-- `install_wget`, dispatched on the variant class: `Linux.install_wget`
runs `apt-get install -y wget` when `wget` is absent or `--force` is set;
`Windows.install_wget` is `pass`; `Darwin.install_wget` runs
`brew install wget` under the same guard. -/
def install_wget (run : Event → Bool) (env : Env) (args : Args) : Proc :=
  match env.os with
  | OS.Linux =>
      if !env.wgetPresent || args.force then
        perform run (Event.call (filterNone [sudo_cmd env, "apt-get", "install", "-y", "wget"]))
      else skip
  | OS.Windows => skip
  | OS.Darwin =>
      if !env.wgetPresent || args.force then
        perform run (Event.call ["brew", "install", "wget"])
      else skip

/-- `install_node_packages`: `Common.install_node_packages` (used by Linux
and Windows) installs the global npm tools; `Darwin.install_node_packages`
instead runs the bundled `./ts_scripts/mac_npm_deps` script. -/
def install_node_packages (run : Event → Bool) (env : Env) : Proc :=
  match env.os with
  | OS.Darwin =>
      perform run (Event.call (filterNone [sudo_cmd env, "./ts_scripts/mac_npm_deps"]))
  | _ =>
      perform run (Event.call (filterNone
        [sudo_cmd env, "npm", "install", "-g", "newman", "newman-reporter-htmlextra",
          "markdown-link-check"]))

/-- `Common.install_torch_packages`: under a truthy `cuda_version`, exits for
Darwin (any version) and for `cu92` on Windows, otherwise pip-installs the
cuda-specific torch requirements file; under a falsy `cuda_version`,
pip-installs the OS-specific torch requirements file. -/
def install_torch_packages (run : Event → Bool) (env : Env)
    (cuda_version : Option String) : Proc :=
  if truthy cuda_version then
    if env.os = OS.Darwin then
      ([], Outcome.exited 1
        "CUDA not supported on MacOS. Refer https://pytorch.org/ for installing from source.")
    else if cuda_version = some "cu92" ∧ env.os = OS.Windows then
      ([], Outcome.exited 1
        "CUDA 9.2 not supported on Windows. Refer https://pytorch.org/ for installing from source.")
    else
      perform run (Event.call
        [sys_executable, "-m", "pip", "install", "-U", "-r",
          "requirements/torch_" ++ pyStr cuda_version ++ "_" ++ systemLower env.os ++ ".txt"])
  else
    perform run (Event.call
      [sys_executable, "-m", "pip", "install", "-U", "-r",
        "requirements/torch_" ++ systemLower env.os ++ ".txt"])

/-- `Common.install_python_packages`: optional `conda install -y conda-build`
bootstrap (when `conda` is on the path), then `install_torch_packages`, then
`pip install -U pip setuptools`, then `pip install -U -r <requirements file>`,
then — when `nightly` is set — the nightly torch install with
`--force-reinstall` against the nightly extra index URL. -/
def install_python_packages (run : Event → Bool) (env : Env)
    (cuda_version : Option String) (requirements_file_path : String)
    (nightly : Bool) : Proc :=
  andThen
    (if env.condaPresent then
      perform run (Event.call ["conda", "install", "-y", "conda-build"])
    else skip)
    (andThen (install_torch_packages run env cuda_version)
      (andThen (perform run (Event.call
          [sys_executable, "-m", "pip", "install", "-U", "pip", "setuptools"]))
        (andThen (perform run (Event.call
            [sys_executable, "-m", "pip", "install", "-U", "-r", requirements_file_path]))
          (if nightly then
            perform run (Event.call
              [sys_executable, "-m", "pip", "install", "numpy", "--pre torch[dynamo]",
                "torchvision", "torchtext", "torchaudio", "--force-reinstall",
                "--extra-index-url",
                "https://download.pytorch.org/whl/nightly/" ++ pyStr cuda_version])
          else skip))))

/-- `Linux.install_libgit2`: wget the v1.3.0 source tarball, extract it,
then inside the extracted directory run `cmake .`, `make`, `make install`,
and finally `shutil.rmtree` the directory and `os.remove` the tarball.
The two cleanup steps are written after the build steps with no
`try/finally`, so they run only when every earlier step succeeded. -/
def install_libgit2 (run : Event → Bool) (env : Env) : Proc :=
  andThen (perform run (Event.call
      ["wget", "https://github.com/libgit2/libgit2/archive/refs/tags/v1.3.0.tar.gz",
        "-O", "libgit2-1.3.0.tar.gz"]))
    (andThen (perform run (Event.extract "libgit2-1.3.0.tar.gz"))
      (andThen (perform run (Event.call ["cmake", "."]))
        (andThen (perform run (Event.call ["make"]))
          (andThen (perform run (Event.call (filterNone [sudo_cmd env, "make", "install"])))
            (andThen (perform run (Event.rmtree "libgit2-1.3.0"))
              (perform run (Event.removeFile "libgit2-1.3.0.tar.gz")))))))

/-- The driver `install_dependencies`: construct the variant for the probed
OS, run the dev-only steps (`install_wget`, `install_nodejs`,
`install_node_packages`), the Linux+dev-only `install_libgit2`, then always
`check_for_jdk` followed by `install_python_packages` on the
environment-selected requirements file.  A `step` marker is emitted at each
variant-method call site so the invocation order is visible in the trace. -/
def install_dependencies (run : Event → Bool) (env : Env) (args : Args) : Proc :=
  andThen (classInit run env args)
    (andThen
      (if args.environment == "dev" then
        andThen (emit (Event.step "install_wget"))
          (andThen (install_wget run env args)
            (andThen (emit (Event.step "install_nodejs"))
              (andThen (install_nodejs run env args)
                (andThen (emit (Event.step "install_node_packages"))
                  (install_node_packages run env)))))
      else skip)
      (andThen
        (if env.os = OS.Linux ∧ args.environment == "dev" then
          andThen (emit (Event.step "install_libgit2")) (install_libgit2 run env)
        else skip)
        (andThen
          (andThen (emit (Event.step "check_for_jdk")) (check_for_jdk run env args))
          (andThen (emit (Event.step "install_python_packages"))
            (install_python_packages run env args.cuda
              ("requirements/" ++
                (if args.environment == "prod" then "production.txt" else "developer.txt"))
              args.nightly_torch)))))

/-- The `--cuda` argument is `None` or one of the eight argparse choices. -/
def validCuda (c : Option String) : Prop :=
  c ∈ ([none, some "cu92", some "cu101", some "cu102", some "cu111",
        some "cu113", some "cu116", some "cu117", some "cu118"] : List (Option String))

/-- The variant-method invocation order recorded in a trace. -/
def stepsOf (es : List Event) : List String :=
  es.filterMap (fun e => match e with | Event.step n => some n | _ => none)

/-- Is this event an invocation of the Python package installer
(`<sys.executable> -m pip ...`)? -/
def isPipCall (e : Event) : Bool :=
  match e with
  | Event.call (exe :: m :: p :: _) => exe == sys_executable && m == "-m" && p == "pip"
  | _ => false

/-- Number of package-installer invocations in a trace. -/
def countPip (es : List Event) : Nat :=
  (es.filter isPipCall).length

/-- Is this event an invocation of the `conda` executable? -/
def isCondaCall (e : Event) : Bool :=
  match e with
  | Event.call (c :: _) => c == "conda"
  | _ => false

/-- An oracle under which every external step succeeds except the `make`
build step (the scenario of a failing native build). -/
def runMakeFails : Event → Bool := fun e =>
  match e with
  | Event.call l => !(l == ["make"])
  | _ => true

/-- Does some command in the trace receive the string `s` as an argument
(or name it as a URL / archive / removed path)? -/
def mentions (es : List Event) (s : String) : Bool :=
  es.any (fun e =>
    match e with
    | Event.step _ => false
    | Event.call cmd => cmd.any (fun a => a == s)
    | Event.urlopen u => u == s
    | Event.extract t => t == s
    | Event.rmtree d => d == s
    | Event.removeFile p => p == s)

/-- The trace contains no driver-level `step` marker: true of every variant
method, since markers are emitted only by the driver itself. -/
def stepFreeProc (p : Proc) : Prop :=
  ∀ e ∈ p.1, ∀ n, e ≠ Event.step n

theorem perform_fst (run : Event → Bool) (ev : Event) : (perform run ev).1 = [ev] := rfl

theorem mem_andThen {e : Event} {p q : Proc} (h : e ∈ (andThen p q).1) :
    e ∈ p.1 ∨ e ∈ q.1 := by
  rcases p with ⟨es, o⟩
  rcases q with ⟨es2, o2⟩
  cases o with
  | ok => simpa [andThen] using h
  | exited c m => exact Or.inl (by simpa [andThen] using h)
  | raised ev => exact Or.inl (by simpa [andThen] using h)

theorem stepFree_nil (o : Outcome) : stepFreeProc ([], o) := by
  intro e he
  simp at he

theorem stepFree_skip : stepFreeProc skip :=
  stepFree_nil Outcome.ok

theorem stepFree_perform (run : Event → Bool) (ev : Event)
    (h : ∀ n, ev ≠ Event.step n) : stepFreeProc (perform run ev) := by
  intro e he n
  rw [perform_fst, List.mem_singleton] at he
  subst he
  exact h n

theorem stepFree_andThen {p q : Proc} (hp : stepFreeProc p) (hq : stepFreeProc q) :
    stepFreeProc (andThen p q) := by
  intro e he n
  rcases mem_andThen he with h | h
  · exact hp e h n
  · exact hq e h n

theorem stepFree_classInit (run : Event → Bool) (env : Env) (args : Args) :
    stepFreeProc (classInit run env args) := by
  intro e he n
  unfold classInit at he
  split at he
  · split at he
    · rw [perform_fst, List.mem_singleton] at he
      subst he
      simp
    · simp [skip] at he
  · simp [skip] at he

theorem stepFree_check_for_jdk (run : Event → Bool) (env : Env) (args : Args) :
    stepFreeProc (check_for_jdk run env args) := by
  intro e he n
  unfold check_for_jdk at he
  split at he
  · split at he
    · simp at he
    · simp [skip] at he
  · simp [skip] at he
  · split at he
    · split at he
      · simp at he
      · rw [perform_fst, List.mem_singleton] at he
        subst he
        simp
    · simp [skip] at he

theorem stepFree_install_torch_packages (run : Event → Bool) (env : Env)
    (cv : Option String) : stepFreeProc (install_torch_packages run env cv) := by
  intro e he n
  unfold install_torch_packages at he
  split at he
  · split at he
    · simp at he
    · split at he
      · simp at he
      · rw [perform_fst, List.mem_singleton] at he
        subst he
        simp
  · rw [perform_fst, List.mem_singleton] at he
    subst he
    simp

theorem stepFree_install_python_packages (run : Event → Bool) (env : Env)
    (cv : Option String) (rq : String) (nightly : Bool) :
    stepFreeProc (install_python_packages run env cv rq nightly) := by
  intro e he n
  unfold install_python_packages at he
  rcases mem_andThen he with h1 | h1
  · split at h1
    · rw [perform_fst, List.mem_singleton] at h1
      subst h1
      simp
    · simp [skip] at h1
  rcases mem_andThen h1 with h2 | h2
  · exact stepFree_install_torch_packages run env cv e h2 n
  rcases mem_andThen h2 with h3 | h3
  · rw [perform_fst, List.mem_singleton] at h3
    subst h3
    simp
  rcases mem_andThen h3 with h4 | h4
  · rw [perform_fst, List.mem_singleton] at h4
    subst h4
    simp
  · split at h4
    · rw [perform_fst, List.mem_singleton] at h4
      subst h4
      simp
    · simp [skip] at h4

/-- In a `prod` run, the only variant methods the driver reaches are
`check_for_jdk` and `install_python_packages`. -/
theorem prod_trace_steps (run : Event → Bool) (env : Env) (args : Args)
    (h : args.environment = "prod") :
    ∀ e ∈ (install_dependencies run env args).1, ∀ n, e = Event.step n →
      n = "check_for_jdk" ∨ n = "install_python_packages" := by
  intro e he n hen
  subst hen
  unfold install_dependencies at he
  rcases mem_andThen he with h1 | h1
  · exact absurd rfl (stepFree_classInit run env args _ h1 n)
  rcases mem_andThen h1 with h2 | h2
  · rw [h] at h2
    simp [skip] at h2
  rcases mem_andThen h2 with h3 | h3
  · rw [h] at h3
    simp [skip] at h3
  rcases mem_andThen h3 with h4 | h4
  · rcases mem_andThen h4 with h5 | h5
    · simp only [emit, List.mem_singleton] at h5
      injection h5 with h6
      exact Or.inl h6
    · exact absurd rfl (stepFree_check_for_jdk run env args _ h5 n)
  rcases mem_andThen h4 with h5 | h5
  · simp only [emit, List.mem_singleton] at h5
    injection h5 with h6
    exact Or.inr h6
  · exact absurd rfl (stepFree_install_python_packages run env _ _ _ _ h5 n)

/-- C7 counterexample: on Windows with `javac` absent from the search path,
`check_for_jdk` (`Windows.check_for_jdk` is `pass`) returns normally with no
failure and no invocation, contradicting the claim that it fails with a
missing-prerequisite condition. -/
theorem C7_counterexample_windows_absent_javac_no_failure :
    check_for_jdk (fun _ => true)
      ⟨OS.Windows, false, false, false, false, false, true⟩
      ⟨none, "prod", false, false⟩ = ([], Outcome.ok) := rfl

/-- C7 (amended): on Windows, `check_for_jdk` is a no-op: for every probe
result and every flag combination it performs no invocation and returns
normally, never failing — regardless of whether `javac` is on the path. -/
theorem C7_amended_windows_jdk_noop (run : Event → Bool) (env : Env) (args : Args)
    (h : env.os = OS.Windows) :
    check_for_jdk run env args = ([], Outcome.ok) := by
  unfold check_for_jdk
  rw [h]
  rfl

/-- C7 witness: the amended no-op behavior at one concrete input. -/
theorem C7_amended_windows_jdk_noop_witness :
    check_for_jdk (fun _ => true)
      ⟨OS.Windows, false, true, true, true, true, false⟩
      ⟨some "cu102", "dev", true, true⟩ = ([], Outcome.ok) :=
  C7_amended_windows_jdk_noop _ _ _ rfl

/-- C6: with `--environment prod`, the driver never invokes the
download-utility, JS runtime, JS tooling, or native-library installation
steps, on any OS, under any oracle for the external steps. -/
theorem C6_prod_skips_dev_steps (run : Event → Bool) (env : Env) (args : Args)
    (h : args.environment = "prod") :
    Event.step "install_wget" ∉ (install_dependencies run env args).1 ∧
    Event.step "install_nodejs" ∉ (install_dependencies run env args).1 ∧
    Event.step "install_node_packages" ∉ (install_dependencies run env args).1 ∧
    Event.step "install_libgit2" ∉ (install_dependencies run env args).1 := by
  refine ⟨fun hm => ?_, fun hm => ?_, fun hm => ?_, fun hm => ?_⟩ <;>
    rcases prod_trace_steps run env args h _ hm _ rfl with h2 | h2 <;> simp at h2

/-- C6 witness: the prod-mode exclusions at one concrete input. -/
theorem C6_prod_skips_dev_steps_witness :
    Event.step "install_wget" ∉ (install_dependencies (fun _ => true)
      ⟨OS.Linux, true, true, true, true, false, true⟩ ⟨none, "prod", false, false⟩).1 ∧
    Event.step "install_nodejs" ∉ (install_dependencies (fun _ => true)
      ⟨OS.Linux, true, true, true, true, false, true⟩ ⟨none, "prod", false, false⟩).1 ∧
    Event.step "install_node_packages" ∉ (install_dependencies (fun _ => true)
      ⟨OS.Linux, true, true, true, true, false, true⟩ ⟨none, "prod", false, false⟩).1 ∧
    Event.step "install_libgit2" ∉ (install_dependencies (fun _ => true)
      ⟨OS.Linux, true, true, true, true, false, true⟩ ⟨none, "prod", false, false⟩).1 :=
  C6_prod_skips_dev_steps (fun _ => true) _ _ rfl

/-- C1 counterexample: on Linux with `--force` set while `javac` is already
on the search path, `check_for_jdk` terminates the run by `sys.exit` with an
empty trace — no package-manager invocation and no (re)installation —
contradicting the claim that the force flag makes the Linux check proceed to
reinstallation via the OS package manager. -/
theorem C1_counterexample_linux_force_exits :
    check_for_jdk (fun _ => true)
      ⟨OS.Linux, true, true, true, true, false, true⟩
      ⟨none, "dev", false, true⟩ =
      ([], Outcome.exited 1
        "javac not found on PATH. Please install JDK 17 appropriate for your operating system.") := rfl

/-- C1 (amended): without `--force` and with `javac` present, `check_for_jdk`
short-circuits on every OS (no invocation, no failure); with `--force`, on
macOS it proceeds to (re)installation via `brew install openjdk@17` (when
Homebrew itself is present), while on Linux it instead terminates via
`sys.exit` with a message instructing manual JDK 17 installation, performing
no package-manager invocation. -/
theorem C1_amended_jdk_check (run : Event → Bool) (env : Env) (args : Args) :
    (args.force = false → env.javacPresent = true →
      check_for_jdk run env args = ([], Outcome.ok)) ∧
    (args.force = true → env.os = OS.Darwin → env.brewVersionNA = false →
      check_for_jdk run env args =
        perform run (Event.call ["brew", "install", "openjdk@17"])) ∧
    (args.force = true → env.os = OS.Linux →
      check_for_jdk run env args = ([], Outcome.exited 1
        "javac not found on PATH. Please install JDK 17 appropriate for your operating system.")) := by
  refine ⟨?_, ?_, ?_⟩
  · intro hf hj
    unfold check_for_jdk
    simp only [hf, hj]
    split
    · simp [skip]
    · rfl
    · simp [skip]
  · intro hf hos hbrew
    unfold check_for_jdk
    rw [hos]
    simp [hf, hbrew]
  · intro hf hos
    unfold check_for_jdk
    rw [hos]
    simp [hf]

/-- C1 witness: the three amended behaviors at concrete inputs. -/
theorem C1_amended_jdk_check_witness :
    check_for_jdk (fun _ => true)
      ⟨OS.Linux, true, true, true, true, false, true⟩
      ⟨none, "dev", false, false⟩ = ([], Outcome.ok) ∧
    check_for_jdk (fun _ => true)
      ⟨OS.Darwin, true, true, true, true, false, false⟩
      ⟨none, "dev", false, true⟩ =
      perform (fun _ => true) (Event.call ["brew", "install", "openjdk@17"]) ∧
    check_for_jdk (fun _ => true)
      ⟨OS.Linux, false, true, true, true, false, true⟩
      ⟨none, "dev", false, true⟩ = ([], Outcome.exited 1
        "javac not found on PATH. Please install JDK 17 appropriate for your operating system.") :=
  ⟨(C1_amended_jdk_check (fun _ => true)
      ⟨OS.Linux, true, true, true, true, false, true⟩
      ⟨none, "dev", false, false⟩).1 rfl rfl,
   (C1_amended_jdk_check (fun _ => true)
      ⟨OS.Darwin, true, true, true, true, false, false⟩
      ⟨none, "dev", false, true⟩).2.1 rfl rfl (by decide),
   (C1_amended_jdk_check (fun _ => true)
      ⟨OS.Linux, false, true, true, true, false, true⟩
      ⟨none, "dev", false, true⟩).2.2 rfl rfl⟩

/-- C2 (code defect): when the `make` build step fails, `install_libgit2`
propagates the failure without performing either cleanup step — neither
`shutil.rmtree("libgit2-1.3.0")` nor `os.remove("libgit2-1.3.0.tar.gz")`
appears in the trace — because the cleanup calls follow the build steps with
no guaranteed-release construct. -/
theorem C2_make_failure_skips_cleanup :
    (install_libgit2 runMakeFails ⟨OS.Linux, true, true, true, true, false, true⟩).2 =
      Outcome.raised (Event.call ["make"]) ∧
    Event.rmtree "libgit2-1.3.0" ∉
      (install_libgit2 runMakeFails ⟨OS.Linux, true, true, true, true, false, true⟩).1 ∧
    Event.removeFile "libgit2-1.3.0.tar.gz" ∉
      (install_libgit2 runMakeFails ⟨OS.Linux, true, true, true, true, false, true⟩).1 := by
  decide

/-- C9: `Darwin.install_nodejs` runs unconditionally — its behavior is the
fixed `brew unlink node`, `brew install node@14`,
`brew link --overwrite node@14` sequence, with no dependence on the `node`
presence probe or the force flag — whereas on Linux, presence of `node`
without `--force` makes `install_nodejs` a no-op. -/
theorem C9_darwin_nodejs_unconditional (run : Event → Bool) (env : Env) (args : Args)
    (hd : env.os = OS.Darwin) :
    install_nodejs run env args =
      andThen (perform run (Event.call ["brew", "unlink", "node"]))
        (andThen (perform run (Event.call ["brew", "install", "node@14"]))
          (perform run (Event.call ["brew", "link", "--overwrite", "node@14"]))) ∧
    (∀ env2 : Env, ∀ args2 : Args, env2.os = OS.Linux → env2.nodePresent = true →
      args2.force = false → install_nodejs run env2 args2 = ([], Outcome.ok)) := by
  constructor
  · unfold install_nodejs
    rw [hd]
  · intro env2 args2 hos hnode hforce
    unfold install_nodejs
    rw [hos]
    simp [hnode, hforce, skip]

/-- C9 witness: both behaviors at concrete inputs. -/
theorem C9_darwin_nodejs_unconditional_witness :
    install_nodejs (fun _ => true)
      ⟨OS.Darwin, true, true, true, true, false, false⟩ ⟨none, "dev", false, false⟩ =
      andThen (perform (fun _ => true) (Event.call ["brew", "unlink", "node"]))
        (andThen (perform (fun _ => true) (Event.call ["brew", "install", "node@14"]))
          (perform (fun _ => true) (Event.call ["brew", "link", "--overwrite", "node@14"]))) ∧
    install_nodejs (fun _ => true)
      ⟨OS.Linux, true, true, true, true, false, true⟩ ⟨none, "dev", false, false⟩ =
      ([], Outcome.ok) :=
  ⟨(C9_darwin_nodejs_unconditional (fun _ => true)
      ⟨OS.Darwin, true, true, true, true, false, false⟩ ⟨none, "dev", false, false⟩ rfl).1,
   (C9_darwin_nodejs_unconditional (fun _ => true)
      ⟨OS.Darwin, true, true, true, true, false, false⟩ ⟨none, "dev", false, false⟩ rfl).2
      ⟨OS.Linux, true, true, true, true, false, true⟩ ⟨none, "dev", false, false⟩ rfl rfl rfl⟩

/-- C3: `install_torch_packages` exits nonzero with no installer invocation
exactly for (a) a truthy accelerator variant on Darwin and (b) variant
`cu92` on Windows; every other (OS, variant) combination performs exactly
one package-installer invocation and never exits. -/
theorem C3_torch_unsupported_configs (run : Event → Bool) (env : Env)
    (cuda : Option String) :
    (truthy cuda = true → env.os = OS.Darwin →
      install_torch_packages run env cuda = ([], Outcome.exited 1
        "CUDA not supported on MacOS. Refer https://pytorch.org/ for installing from source.")) ∧
    (cuda = some "cu92" → env.os = OS.Windows →
      install_torch_packages run env cuda = ([], Outcome.exited 1
        "CUDA 9.2 not supported on Windows. Refer https://pytorch.org/ for installing from source.")) ∧
    (¬(truthy cuda = true ∧ env.os = OS.Darwin) →
      ¬(cuda = some "cu92" ∧ env.os = OS.Windows) →
      countPip (install_torch_packages run env cuda).1 = 1 ∧
      ∀ c m, (install_torch_packages run env cuda).2 ≠ Outcome.exited c m) := by
  refine ⟨?_, ?_, ?_⟩
  · intro ht hos
    unfold install_torch_packages
    simp [ht, hos]
  · intro hc hos
    subst hc
    unfold install_torch_packages
    simp [truthy, hos]
  · intro h1 h2
    unfold install_torch_packages
    by_cases ht : truthy cuda = true
    · have hD : ¬ env.os = OS.Darwin := fun hd => h1 ⟨ht, hd⟩
      rw [if_pos ht, if_neg hD, if_neg h2]
      constructor
      · simp [countPip, perform, isPipCall, sys_executable]
      · intro c m
        simp only [perform]
        split <;> simp
    · rw [if_neg ht]
      constructor
      · simp [countPip, perform, isPipCall, sys_executable]
      · intro c m
        simp only [perform]
        split <;> simp

/-- C3 witness: the two fatal configurations and one supported one. -/
theorem C3_torch_unsupported_configs_witness :
    install_torch_packages (fun _ => true)
      ⟨OS.Darwin, true, true, true, true, false, false⟩ (some "cu111") =
      ([], Outcome.exited 1
        "CUDA not supported on MacOS. Refer https://pytorch.org/ for installing from source.") ∧
    install_torch_packages (fun _ => true)
      ⟨OS.Windows, true, true, true, true, false, true⟩ (some "cu92") =
      ([], Outcome.exited 1
        "CUDA 9.2 not supported on Windows. Refer https://pytorch.org/ for installing from source.") ∧
    countPip (install_torch_packages (fun _ => true)
      ⟨OS.Linux, true, true, true, true, false, true⟩ none).1 = 1 ∧
    (install_torch_packages (fun _ => true)
      ⟨OS.Linux, true, true, true, true, false, true⟩ none).2 ≠
      Outcome.exited 1 "CUDA not supported on MacOS. Refer https://pytorch.org/ for installing from source." :=
  ⟨(C3_torch_unsupported_configs (fun _ => true)
      ⟨OS.Darwin, true, true, true, true, false, false⟩ (some "cu111")).1 (by decide) rfl,
   (C3_torch_unsupported_configs (fun _ => true)
      ⟨OS.Windows, true, true, true, true, false, true⟩ (some "cu92")).2.1 rfl rfl,
   ((C3_torch_unsupported_configs (fun _ => true)
      ⟨OS.Linux, true, true, true, true, false, true⟩ none).2.2
      (by decide) (by decide)).1,
   ((C3_torch_unsupported_configs (fun _ => true)
      ⟨OS.Linux, true, true, true, true, false, true⟩ none).2.2
      (by decide) (by decide)).2 1
      "CUDA not supported on MacOS. Refer https://pytorch.org/ for installing from source."⟩

theorem andThen_perform_cons (run : Event → Bool) (ev : Event) (q : Proc) :
    ∃ rest, (andThen (perform run ev) q).1 = ev :: rest := by
  rcases q with ⟨es2, o2⟩
  cases hr : run ev
  · exact ⟨[], by simp [perform, hr, andThen]⟩
  · exact ⟨es2, by simp [perform, hr, andThen]⟩

/-- C8: when `conda` is on the search path, `install_python_packages` runs
`conda install -y conda-build` as its very first invocation (hence before
every package-installer invocation); when `conda` is absent, no conda
invocation occurs anywhere in the trace. -/
theorem C8_conda_bootstrap_first (run : Event → Bool) (env : Env)
    (cuda : Option String) (rq : String) (nightly : Bool) :
    (env.condaPresent = true →
      ∃ rest, (install_python_packages run env cuda rq nightly).1 =
        Event.call ["conda", "install", "-y", "conda-build"] :: rest) ∧
    (env.condaPresent = false →
      ∀ e ∈ (install_python_packages run env cuda rq nightly).1,
        isCondaCall e = false) := by
  constructor
  · intro hc
    unfold install_python_packages
    rw [if_pos hc]
    exact andThen_perform_cons run _ _
  · intro hc e he
    unfold install_python_packages at he
    rcases mem_andThen he with h1 | h1
    · rw [hc] at h1
      simp [skip] at h1
    rcases mem_andThen h1 with h2 | h2
    · revert h2
      unfold install_torch_packages
      split
      · split
        · intro h2
          simp at h2
        · split
          · intro h2
            simp at h2
          · intro h2
            rw [perform_fst, List.mem_singleton] at h2
            subst h2
            rfl
      · intro h2
        rw [perform_fst, List.mem_singleton] at h2
        subst h2
        rfl
    rcases mem_andThen h2 with h3 | h3
    · rw [perform_fst, List.mem_singleton] at h3
      subst h3
      rfl
    rcases mem_andThen h3 with h4 | h4
    · rw [perform_fst, List.mem_singleton] at h4
      subst h4
      rfl
    · split at h4
      · rw [perform_fst, List.mem_singleton] at h4
        subst h4
        rfl
      · simp [skip] at h4

/-- C8 witness: the bootstrap heads the trace with conda present; a sample
trace member is not a conda invocation with conda absent. -/
theorem C8_conda_bootstrap_first_witness :
    (install_python_packages (fun _ => true)
        ⟨OS.Linux, true, true, true, true, false, true⟩ none
        "requirements/developer.txt" false).1.head? =
      some (Event.call ["conda", "install", "-y", "conda-build"]) ∧
    isCondaCall (Event.call
      [sys_executable, "-m", "pip", "install", "-U", "-r",
        "requirements/torch_linux.txt"]) = false := by
  constructor
  · obtain ⟨rest, hrest⟩ := (C8_conda_bootstrap_first (fun _ => true)
      ⟨OS.Linux, true, true, true, true, false, true⟩ none
      "requirements/developer.txt" false).1 rfl
    rw [hrest]
    rfl
  · exact (C8_conda_bootstrap_first (fun _ => true)
      ⟨OS.Linux, true, true, true, false, false, true⟩ none
      "requirements/developer.txt" false).2 rfl
      (Event.call [sys_executable, "-m", "pip", "install", "-U", "-r",
        "requirements/torch_linux.txt"]) (by decide)

/-- C10: with the nightly flag set and no accelerator variant
(`cuda_version = None`), the extra nightly invocation is still performed —
it is the last event of the trace — and its `--extra-index-url` is the
nightly index with the literal string "None" as its final path segment,
because the Python f-string renders `None` as "None". -/
theorem C10_nightly_none_url (env : Env) (rq : String) :
    ((install_python_packages (fun _ => true) env none rq true).1).getLast? =
      some (Event.call
        [sys_executable, "-m", "pip", "install", "numpy", "--pre torch[dynamo]",
          "torchvision", "torchtext", "torchaudio", "--force-reinstall",
          "--extra-index-url", "https://download.pytorch.org/whl/nightly/None"]) := by
  rcases env with ⟨os, jp, np, wp, cp, ir, bv⟩
  cases cp <;> rfl

/-- C4 counterexample: at a concrete supported configuration (Linux, variant
cu118, no conda), the standard run of `install_python_packages` performs
three package-installer invocations (torch requirements, the
`pip install -U pip setuptools` upgrade, the general requirements file), not
two; with the nightly flag the total is four, not the three the claim
implies. -/
theorem C4_counterexample_three_standard_invocations :
    countPip (install_python_packages (fun _ => true)
      ⟨OS.Linux, true, true, true, false, false, true⟩ (some "cu118")
      "requirements/developer.txt" false).1 = 3 ∧
    countPip (install_python_packages (fun _ => true)
      ⟨OS.Linux, true, true, true, false, false, true⟩ (some "cu118")
      "requirements/developer.txt" true).1 = 4 := by
  decide

/-- C4 (amended): in every configuration that does not hit one of the two
fatal unsupported combinations, setting the nightly flag makes
`install_python_packages` perform exactly one package-installer invocation
beyond the standard three (torch install, `pip`/`setuptools` upgrade,
general requirements install): the trace is the standard trace followed by
the nightly invocation, which carries `--force-reinstall` and the nightly
index URL ending in the accelerator variant. -/
theorem C4_amended_nightly_extra_invocation (env : Env) (cuda : Option String)
    (rq : String)
    (h1 : ¬(truthy cuda = true ∧ env.os = OS.Darwin))
    (h2 : ¬(cuda = some "cu92" ∧ env.os = OS.Windows)) :
    (install_python_packages (fun _ => true) env cuda rq true).1 =
      (install_python_packages (fun _ => true) env cuda rq false).1 ++
        [Event.call [sys_executable, "-m", "pip", "install", "numpy",
          "--pre torch[dynamo]", "torchvision", "torchtext", "torchaudio",
          "--force-reinstall", "--extra-index-url",
          "https://download.pytorch.org/whl/nightly/" ++ pyStr cuda]] ∧
    countPip (install_python_packages (fun _ => true) env cuda rq false).1 = 3 ∧
    countPip (install_python_packages (fun _ => true) env cuda rq true).1 = 4 := by
  rcases env with ⟨os, jp, np, wp, cp, ir, bv⟩
  by_cases ht : truthy cuda = true
  · cases os with
    | Darwin => exact absurd ⟨ht, rfl⟩ h1
    | Linux =>
        cases cp <;>
          simp [install_python_packages, install_torch_packages, perform, andThen,
            skip, countPip, isPipCall, sys_executable, ht]
    | Windows =>
        have h2x : ¬ cuda = some "cu92" := fun hcu => h2 ⟨hcu, rfl⟩
        cases cp <;>
          simp [install_python_packages, install_torch_packages, perform, andThen,
            skip, countPip, isPipCall, sys_executable, ht, h2x]
  · cases os <;> cases cp <;>
      simp [install_python_packages, install_torch_packages, perform, andThen,
        skip, countPip, isPipCall, sys_executable, ht]

/-- C4 witness: the amended count and trace shape at one concrete input. -/
theorem C4_amended_nightly_extra_invocation_witness :
    (install_python_packages (fun _ => true)
        ⟨OS.Linux, true, true, true, false, false, true⟩ (some "cu118")
        "requirements/developer.txt" true).1 =
      (install_python_packages (fun _ => true)
        ⟨OS.Linux, true, true, true, false, false, true⟩ (some "cu118")
        "requirements/developer.txt" false).1 ++
        [Event.call [sys_executable, "-m", "pip", "install", "numpy",
          "--pre torch[dynamo]", "torchvision", "torchtext", "torchaudio",
          "--force-reinstall", "--extra-index-url",
          "https://download.pytorch.org/whl/nightly/" ++ pyStr (some "cu118")]] ∧
    countPip (install_python_packages (fun _ => true)
      ⟨OS.Linux, true, true, true, false, false, true⟩ (some "cu118")
      "requirements/developer.txt" false).1 = 3 ∧
    countPip (install_python_packages (fun _ => true)
      ⟨OS.Linux, true, true, true, false, false, true⟩ (some "cu118")
      "requirements/developer.txt" true).1 = 4 :=
  C4_amended_nightly_extra_invocation
    ⟨OS.Linux, true, true, true, false, false, true⟩ (some "cu118")
    "requirements/developer.txt" (by decide) (by decide)

/-- C5: on a Linux host in dev mode (on the happy path: every external step
succeeds, `javac` present, no `--force`, a valid `--cuda` choice), the
driver invokes the variant methods in exactly the order download-utility
install, JS runtime install, JS tooling install, native-library install,
compiler check, language-package install, and the production requirements
file is never referenced by any performed command. -/
theorem C5_dev_linux_step_order (env : Env) (args : Args)
    (hos : env.os = OS.Linux) (henv : args.environment = "dev")
    (hforce : args.force = false) (hjavac : env.javacPresent = true)
    (hcuda : validCuda args.cuda) :
    stepsOf (install_dependencies (fun _ => true) env args).1 =
      ["install_wget", "install_nodejs", "install_node_packages", "install_libgit2",
        "check_for_jdk", "install_python_packages"] ∧
    mentions (install_dependencies (fun _ => true) env args).1
      "requirements/production.txt" = false := by
  rcases env with ⟨os, jp, np, wp, cp, ir, bv⟩
  rcases args with ⟨cuda, envr, nt, fr⟩
  dsimp only at hos henv hforce hjavac hcuda
  subst hos henv hforce hjavac
  simp only [validCuda, List.mem_cons, List.not_mem_nil, or_false] at hcuda
  rcases hcuda with h | h | h | h | h | h | h | h | h <;> subst h <;>
    cases np <;> cases wp <;> cases cp <;> cases ir <;> cases nt <;> cases bv <;> decide

/-- C5 witness: the dev-mode Linux ordering at one concrete input. -/
theorem C5_dev_linux_step_order_witness :
    stepsOf (install_dependencies (fun _ => true)
      ⟨OS.Linux, true, true, true, false, false, true⟩
      ⟨none, "dev", false, false⟩).1 =
      ["install_wget", "install_nodejs", "install_node_packages", "install_libgit2",
        "check_for_jdk", "install_python_packages"] ∧
    mentions (install_dependencies (fun _ => true)
      ⟨OS.Linux, true, true, true, false, false, true⟩
      ⟨none, "dev", false, false⟩).1 "requirements/production.txt" = false :=
  C5_dev_linux_step_order
    ⟨OS.Linux, true, true, true, false, false, true⟩
    ⟨none, "dev", false, false⟩ rfl rfl rfl rfl
    (by unfold validCuda; decide)
